import Mathlib

/-!
# async-stream-generator: a verified model of `src/index.js`

The repository adapts an ES6 async generator (a pull-based asynchronous
sequence) into a Node.js `Readable` stream.  The whole adapter is the file
`src/index.js`:

* `isAsyncIterator(obj)` — `obj == null` is rejected, otherwise the check is
  `typeof obj[Symbol.asyncIterator] === "function"`.
* `StreamGenerators(g)` — throws `TypeError("First argument must be a ES6
  Async Generator")` when `isAsyncIterator(g)` is false; otherwise calls
  `Readable.call(this, { objectMode: true })` and stores `this._g = g`.
* `StreamGenerators.prototype._read` — inside a `try`, calls
  `this._g.next().then(r => { if (false === r.done) this.push(r.value); else
  this.push(null); })`; the `catch` does `this.emit("error", e)`.
  Note: `.then` is given a fulfillment handler only, so an asynchronous
  rejection of the pull promise is never observed by the adapter, and the
  `catch` fires only on a synchronous throw.

The model below embeds exactly these three functions.  JavaScript promises
are modelled by the outcome each `next()` call eventually has
(`PullOutcome`); the Node stream machinery that drives `_read` is modelled
by the `drive` loop (one `_read` per demand signal, stopping after
end-of-stream, an `error` event, or a stall).
-/

/-- A JavaScript value in `done` position of an iterator result.  Only the
strict comparison `false === r.done` matters to the adapter, so we model the
value shapes that can sit there. -/
inductive JSVal where
  | vbool (b : Bool)
  | vundef
  | vnull
  | vnum (n : Int)
  | vstr (s : String)
deriving DecidableEq, Repr

/-- The strict equality test `false === d` from line 26 of `src/index.js`:
true exactly when `d` is the boolean `false`. -/
def strictFalse : JSVal → Bool
  | .vbool false => true
  | _ => false

/-- Errors surfaced by the JavaScript runtime or by the producer.  A
`typeError` carries its message; `userError` stands for an arbitrary error
value a producer fails with. -/
inductive JSError where
  | typeError (msg : String)
  | userError (code : Nat)
deriving DecidableEq, Repr

/-- The eventual outcome of one `this._g.next()` call:
* `fulfill done value` — the returned promise fulfills with a result object
  `r` whose `r.done` is `done` and whose `r.value` is `value`;
* `reject e` — the returned promise rejects asynchronously with `e`;
* `syncThrow e` — the `next()` call itself throws `e` synchronously (for
  example when `this._g.next` is not a function). -/
inductive PullOutcome (α : Type) where
  | fulfill (done : JSVal) (value : α)
  | reject (e : JSError)
  | syncThrow (e : JSError)
deriving DecidableEq, Repr

/-- The object passed to `streamify`, as far as the adapter can observe it:
whether the well-known `Symbol.asyncIterator` lookup yields a function,
whether the object itself has a `next` method (and, if so, the outcome of
its i-th invocation), and the outcomes the iterator obtained from the
lookup would yield (used to state what consuming *through the lookup*
would produce). -/
structure WrappedObj (α : Type) where
  hasAsyncIteratorFn : Bool
  next? : Option (Nat → PullOutcome α)
  iterOutcomes : Nat → PullOutcome α

/-- A JavaScript argument to the exported function: `null`, `undefined`, a
non-object primitive (whose default boxed prototype exposes no
`Symbol.asyncIterator`), or an object. -/
inductive JSArg (α : Type) where
  | jsNull
  | jsUndefined
  | prim
  | obj (w : WrappedObj α)

/-- `isAsyncIterator` from `src/index.js` lines 3-9: `obj == null` (which in
JavaScript is true exactly for `null` and `undefined`) returns false, and
otherwise the result is `typeof obj[Symbol.asyncIterator] === "function"`.
For a non-object primitive the lookup consults the default boxed prototype,
which has no such property. -/
def isAsyncIterator : JSArg α → Bool
  | .jsNull => false
  | .jsUndefined => false
  | .prim => false
  | .obj w => w.hasAsyncIteratorFn

/-- The state of one adapter instance: the stored `this._g`, the
`objectMode` flag passed to `Readable.call`, and how many `next()` calls
the adapter has issued so far (the wrapped sequence's cursor). -/
structure StreamState (α : Type) where
  _g : JSArg α
  objectMode : Bool
  cursor : Nat

/-- `StreamGenerators` from `src/index.js` lines 11-17: throws `TypeError`
when the argument fails `isAsyncIterator`, otherwise initialises the
`Readable` base in object mode and stores the argument unchanged in
`this._g`.  `Except.error` models the synchronous throw: no partial object
is returned, and the fresh adapter has issued zero pulls. -/
def StreamGenerators (g : JSArg α) : Except JSError (StreamState α) :=
  if isAsyncIterator g then
    .ok { _g := g, objectMode := true, cursor := 0 }
  else
    .error (.typeError "First argument must be a ES6 Async Generator")

/-- The module export (`src/index.js` lines 37-39): `list => new
StreamGenerators(list)`. -/
def streamify (g : JSArg α) : Except JSError (StreamState α) :=
  StreamGenerators g

/-- The outcome of the i-th `this._g.next()` call.  The code never performs
the `Symbol.asyncIterator` lookup when pulling: it invokes `next` directly
on the stored argument, so when the argument has no `next` method the call
throws a synchronous `TypeError`. -/
def gNext (g : JSArg α) : Nat → PullOutcome α :=
  match g with
  | .obj w =>
    match w.next? with
    | some f => f
    | none => fun _ => .syncThrow (.typeError "this._g.next is not a function")
  | _ => fun _ => .syncThrow (.typeError "this._g.next is not a function")

/-- The stream-level effect of one `_read` invocation:
* `pushed v` — `this.push(r.value)` ran (a data item enters the buffer);
* `pushEnd` — `this.push(null)` ran (end-of-stream marker);
* `errored e` — the `catch` ran `this.emit("error", e)`;
* `stalled` — the pull promise rejected: `.then` has no rejection handler
  and the `try`/`catch` only sees synchronous throws, so neither handler
  runs and nothing reaches the stream (an unhandled promise rejection). -/
inductive ReadEffect (α : Type) where
  | pushed (v : α)
  | pushEnd
  | errored (e : JSError)
  | stalled
deriving DecidableEq, Repr

/-- What the `_read` body (lines 23-35) does with the outcome of the one
pull it issues: on fulfillment, `if (false === r.done) this.push(r.value)
else this.push(null)`; on synchronous throw, `this.emit("error", e)`; on
asynchronous rejection, nothing (no rejection handler is installed). -/
def readStep : PullOutcome α → ReadEffect α
  | .fulfill done value => if strictFalse done then .pushed value else .pushEnd
  | .syncThrow e => .errored e
  | .reject _ => .stalled

/-- One invocation of `StreamGenerators.prototype._read`.  `_size` is the
`size` argument Node passes (ignored by the code) and `_pushReturn` is the
boolean the `this.push` call will return (the buffer-pressure signal, which
the code also ignores).  The invocation issues exactly one `next()` call —
the cursor advances by one — and produces the effect of that pull's
outcome. -/
def readOnce (s : StreamState α) (_size : Nat) (_pushReturn : Bool) :
    StreamState α × ReadEffect α :=
  ({ s with cursor := s.cursor + 1 }, readStep (gNext s._g s.cursor))

/-- A notification observable on the stream by its consumer. -/
inductive StreamEvent (α : Type) where
  | data (v : α)
  | eos
  | error (e : JSError)
deriving DecidableEq, Repr

/-- The Node stream machinery driving the adapter, modelled from the spec's
demand discipline: each demand signal invokes `_read` once; after a data
push the machinery (given enough consumer demand, here `fuel` signals)
demands again; after `push(null)` or an `error` event it stops; after a
stalled read nothing was pushed, so no further demand arrives.  The
`oracle` supplies the return value of each `push` call, which `readOnce`
provably ignores. -/
def drive (oracle : Nat → Bool) : Nat → StreamState α → List (StreamEvent α)
  | 0, _ => []
  | fuel + 1, s =>
    match readOnce s 0 (oracle s.cursor) with
    | (s', .pushed v) => .data v :: drive oracle fuel s'
    | (_, .pushEnd) => [.eos]
    | (_, .errored e) => [.error e]
    | (_, .stalled) => []

/-- The i-th pull outcome of a well-behaved finite async generator yielding
the list `vs`: the first `vs.length` pulls fulfill with `done: false` and
the successive elements, and every later pull fulfills with `done: true`
(carrying `junk` in value position; a real generator carries `undefined`,
and the adapter must discard it either way). -/
def finOutcomes (vs : List α) (junk : α) : Nat → PullOutcome α := fun i =>
  if h : i < vs.length then .fulfill (.vbool false) (vs.get ⟨i, h⟩)
  else .fulfill (.vbool true) junk

/-- A finite async generator as an argument: it is its own async iterator
(the `Symbol.asyncIterator` lookup yields a function and the object exposes
`next` itself), exactly like an ES6 async generator object. -/
def finiteArg (vs : List α) (junk : α) : JSArg α :=
  .obj { hasAsyncIteratorFn := true
         next? := some (finOutcomes vs junk)
         iterOutcomes := finOutcomes vs junk }

/-- The fresh adapter state wrapping a finite generator. -/
def finState (vs : List α) (junk : α) (c : Nat) : StreamState α :=
  { _g := finiteArg vs junk, objectMode := true, cursor := c }

/-- Consumption of a raw outcome function with the adapter's per-result
handling.  Applied to an object's `iterOutcomes` it expresses what the spec
describes — pulling through the iterator obtained from the well-known
`Symbol.asyncIterator` lookup; applied to an object's own `next` outcomes
it expresses what the code does. -/
def consumeOutcomes (iter : Nat → PullOutcome α) : Nat → Nat → List (StreamEvent α)
  | 0, _ => []
  | fuel + 1, c =>
    match readStep (iter c) with
    | .pushed v => .data v :: consumeOutcomes iter fuel (c + 1)
    | .pushEnd => [.eos]
    | .errored e => [.error e]
    | .stalled => []

/-- A demand/resolution event in an execution trace: `demand` is the
machinery invoking `_read`, `resolution` is the settlement of the pull
promise that invocation issued (at which point the handler pushes). -/
inductive DriverEvent where
  | demand
  | resolution
deriving DecidableEq, Repr

/-- Run a trace of driver events against an adapter state and record, after
each event, the number of outstanding pulls: pulls issued so far
(`cursor`, since `readOnce` issues exactly one per demand) minus pulls
resolved so far (`res`). -/
def execOutstanding : StreamState α → Nat → List DriverEvent → List Nat
  | _, _, [] => []
  | s, res, .demand :: t =>
    ((readOnce s 0 false).1.cursor - res) ::
      execOutstanding (readOnce s 0 false).1 res t
  | s, res, .resolution :: t =>
    (s.cursor - (res + 1)) :: execOutstanding s (res + 1) t

/-- Alternating demand discipline, from the spec: the machinery issues a
new demand only when no pull is pending (`b` records whether a pull is
pending; a resolution arrives only when one is). -/
inductive Alternates : Bool → List DriverEvent → Prop where
  | nil : ∀ {b}, Alternates b []
  | demand : ∀ {t}, Alternates true t → Alternates false (.demand :: t)
  | resolution : ∀ {t}, Alternates false t → Alternates true (.resolution :: t)

/-- A concrete well-formed argument (an async generator yielding `[1]`),
used to instantiate construction-success statements. -/
def goodObj : WrappedObj Nat :=
  { hasAsyncIteratorFn := true
    next? := some (finOutcomes [1] 0)
    iterOutcomes := finOutcomes [1] 0 }

/-- A generator yielding one composite record (a list of pairs), used to
instantiate the passthrough statement on a non-byte structured value. -/
def compositeObj : WrappedObj (List (Nat × String)) :=
  { hasAsyncIteratorFn := true
    next? := some (finOutcomes [[(1, "car"), (2, "color")]] [])
    iterOutcomes := finOutcomes [[(1, "car"), (2, "color")]] [] }

/-- Pull outcomes of a producer whose first two pulls yield `1` and `2`
and whose third pull rejects asynchronously with `userError 7`. -/
def rejOutcomes : Nat → PullOutcome Nat := fun i =>
  if i = 0 then .fulfill (.vbool false) 1
  else if i = 1 then .fulfill (.vbool false) 2
  else .reject (.userError 7)

/-- The rejecting producer as a constructor argument (its own iterator). -/
def rejectingGen : JSArg Nat :=
  .obj { hasAsyncIteratorFn := true
         next? := some rejOutcomes
         iterOutcomes := rejOutcomes }

/-- Pull outcomes of a producer whose first two pulls yield `1` and `2`
and whose third `next()` call throws `userError 7` synchronously. -/
def throwingOutcomes : Nat → PullOutcome Nat := fun i =>
  if i = 0 then .fulfill (.vbool false) 1
  else if i = 1 then .fulfill (.vbool false) 2
  else .syncThrow (.userError 7)

/-- The synchronously-throwing producer as a constructor argument. -/
def throwingGen : JSArg Nat :=
  .obj { hasAsyncIteratorFn := true
         next? := some throwingOutcomes
         iterOutcomes := throwingOutcomes }

/-- An async-iterable whose iterator (yielding `[42]`) is reachable only
through the `Symbol.asyncIterator` lookup: the object itself has no `next`
method. -/
def lookupOnlyObj : WrappedObj Nat :=
  { hasAsyncIteratorFn := true
    next? := none
    iterOutcomes := finOutcomes [42] 0 }

/-- A concrete alternating driver trace: two demand/resolution rounds. -/
def altTrace : List DriverEvent :=
  [.demand, .resolution, .demand, .resolution]

-- Sanity examples (concrete evaluations of the model).
example : drive (fun _ => false) 3 (finState [7, 8] 0 0) =
    [.data 7, .data 8, .eos] := rfl
example : drive (fun _ => false) 1 (finState ([] : List Nat) 0 0) = [.eos] := rfl

/-- Auxiliary: driving a finite generator from cursor `c` with exactly
enough demand emits the remaining values, in order, then end-of-stream. -/
theorem drive_fin (vs : List α) (junk : α) (o : Nat → Bool) :
    ∀ k c, c + k = vs.length →
      drive o (k + 1) (finState vs junk c) =
        (vs.drop c).map StreamEvent.data ++ [StreamEvent.eos] := by
  intro k
  induction k with
  | zero =>
    intro c hc
    have hc0 : c = vs.length := by omega
    have hlt : ¬ c < vs.length := by omega
    simp [drive, readOnce, finState, gNext, finiteArg, finOutcomes, hlt,
      readStep, strictFalse, hc0, List.drop_length]
  | succ k ih =>
    intro c hc
    have hlt : c < vs.length := by omega
    have step : drive o (k + 1 + 1) (finState vs junk c) =
        StreamEvent.data (vs.get ⟨c, hlt⟩) ::
          drive o (k + 1) (finState vs junk (c + 1)) := by
      simp [drive, readOnce, finState, gNext, finiteArg, finOutcomes, hlt,
        readStep, strictFalse]
    rw [step, ih (c + 1) (by omega), List.drop_eq_getElem_cons hlt]
    rfl

/-- Claim C2: a finite wrapped sequence yielding `vs` drives to exactly the
events `data v1, ..., data vn` in yield order followed by end-of-stream —
no reordering, drops or duplication — whatever buffer-pressure answers the
push calls return. -/
theorem order_preservation (vs : List α) (junk : α) (o : Nat → Bool) :
    drive o (vs.length + 1) (finState vs junk 0) =
      vs.map StreamEvent.data ++ [StreamEvent.eos] := by
  simpa using drive_fin vs junk o vs.length 0 (by omega)

/-- Claim C7: a wrapped sequence that immediately reports completion
produces zero data items and then the end-of-stream marker, however much
further demand is available. -/
theorem empty_sequence (junk : α) (o : Nat → Bool) (n : Nat) :
    drive o (n + 1) (finState [] junk 0) = [StreamEvent.eos] := by
  simp [drive, readOnce, finState, gNext, finiteArg, finOutcomes, readStep,
    strictFalse]

/-- Claim C3: construction raises the `TypeError` synchronously (returning
no object at all) for `null`, `undefined`, non-object primitives and
objects without a callable `Symbol.asyncIterator`; for every argument with
the capability it returns the adapter, bound to the argument, in object
mode, with zero pulls issued. -/
theorem construction_validation (g : JSArg α) :
    ((g = .jsNull ∨ g = .jsUndefined ∨ g = .prim ∨
        ∃ w, g = .obj w ∧ w.hasAsyncIteratorFn = false) →
      StreamGenerators g =
        .error (.typeError "First argument must be a ES6 Async Generator")) ∧
    ((∃ w, g = .obj w ∧ w.hasAsyncIteratorFn = true) →
      StreamGenerators g =
        .ok { _g := g, objectMode := true, cursor := 0 }) := by
  constructor
  · rintro (rfl | rfl | rfl | ⟨w, rfl, hw⟩)
    · rfl
    · rfl
    · rfl
    · simp [StreamGenerators, isAsyncIterator, hw]
  · rintro ⟨w, rfl, hw⟩
    simp [StreamGenerators, isAsyncIterator, hw]

/-- Witness for `construction_validation`: the null argument is rejected
and a concrete async generator is accepted. -/
theorem construction_validation_witness :
    StreamGenerators (JSArg.jsNull (α := Nat)) =
        .error (.typeError "First argument must be a ES6 Async Generator") ∧
      StreamGenerators (.obj goodObj) =
        .ok { _g := .obj goodObj, objectMode := true, cursor := 0 } :=
  ⟨(construction_validation JSArg.jsNull).1 (Or.inl rfl),
   (construction_validation (.obj goodObj)).2 ⟨goodObj, rfl, rfl⟩⟩

/-- Claim C10: the adapter pushes `r.value` exactly when `r.done` is the
boolean `false` (the strict `false === r.done` test); for every other
`done` value — `true`, `undefined`, `null`, numbers, strings — it pushes
the end-of-stream marker and the accompanying value is discarded. -/
theorem done_strict_false (d : JSVal) (v : α) :
    (d = .vbool false → readStep (.fulfill d v) = .pushed v) ∧
    (d ≠ .vbool false → readStep (.fulfill d v) = .pushEnd) := by
  constructor
  · rintro rfl
    rfl
  · intro hd
    have hs : strictFalse d = false := by
      cases d with
      | vbool b =>
        cases b with
        | false => exact absurd rfl hd
        | true => rfl
      | vundef => rfl
      | vnull => rfl
      | vnum n => rfl
      | vstr s => rfl
    simp [readStep, hs]

/-- Witness for `done_strict_false`: a result with `done: false` is
emitted, while results with `done: undefined` and `done: true` end the
stream. -/
theorem done_strict_false_witness :
    readStep (PullOutcome.fulfill (.vbool false) (5 : Nat)) = .pushed 5 ∧
      readStep (PullOutcome.fulfill .vundef (5 : Nat)) = .pushEnd ∧
      readStep (PullOutcome.fulfill (.vbool true) (5 : Nat)) = .pushEnd :=
  ⟨(done_strict_false (.vbool false) 5).1 rfl,
   (done_strict_false .vundef 5).2 (by decide),
   (done_strict_false (.vbool true) 5).2 (by decide)⟩

/-- Claim C8: every adapter the constructor returns runs in object mode,
and a pull fulfilling with `done: false` and value `v` makes the read
push exactly `v` — the identity, with no transformation, for values of
arbitrary structure (the statement is polymorphic in the value type). -/
theorem passthrough_identity (w : WrappedObj α) (s : StreamState α) (v : α)
    (sz : Nat) (b : Bool)
    (hc : StreamGenerators (.obj w) = .ok s)
    (hp : gNext s._g s.cursor = .fulfill (.vbool false) v) :
    s.objectMode = true ∧ (readOnce s sz b).2 = .pushed v := by
  constructor
  · by_cases hw : w.hasAsyncIteratorFn
    · simp only [StreamGenerators, isAsyncIterator, hw, if_true,
        Except.ok.injEq] at hc
      rw [← hc]
    · simp [StreamGenerators, isAsyncIterator, hw] at hc
  · simp [readOnce, hp, readStep, strictFalse]

/-- Witness for `passthrough_identity`: a composite record (a list of
pairs) is observed by the consumer exactly as yielded. -/
theorem passthrough_identity_witness :
    ({ _g := .obj compositeObj, objectMode := true, cursor := 0 } :
        StreamState (List (Nat × String))).objectMode = true ∧
      (readOnce
          { _g := .obj compositeObj, objectMode := true, cursor := 0 }
          0 false).2 = .pushed [(1, "car"), (2, "color")] :=
  passthrough_identity compositeObj
    { _g := .obj compositeObj, objectMode := true, cursor := 0 }
    [(1, "car"), (2, "color")] 0 false rfl rfl

/-- Claim C9: one read invocation issues exactly one pull (the cursor into
the wrapped sequence advances by exactly one), its result is independent of
the `size` hint and of the boolean the push call returns, and a whole
drive of the stream is unaffected by the buffer-pressure answers — the
push return value is never consulted to throttle pulls. -/
theorem one_pull_per_read (s : StreamState α) (sz sz2 : Nat) (b b2 : Bool)
    (o o2 : Nat → Bool) (fuel : Nat) :
    (readOnce s sz b).1.cursor = s.cursor + 1 ∧
      readOnce s sz b = readOnce s sz2 b2 ∧
      drive o fuel s = drive o2 fuel s := by
  refine ⟨rfl, rfl, ?_⟩
  induction fuel generalizing s with
  | zero => rfl
  | succ n ih =>
    simp only [drive, readOnce]
    cases hr : readStep (gNext s._g s.cursor) <;> simp [hr, ih]

/-- Claim C1 evaluated on the code at the failing input: a producer whose
third pull rejects asynchronously with `userError 7` after yielding `1`
and `2`.  However much demand follows, the stream shows only `data 1,
data 2` — no error notification (and no end-of-stream) ever appears,
because the fulfillment-only `then` handler leaves the rejection
unhandled.  By contrast a producer whose third `next()` call throws
synchronously is caught by the `try`/`catch` and does surface as an
error event, as the claim describes. -/
theorem rejection_not_surfaced (fuel : Nat) :
    drive (fun _ => false) (fuel + 3)
        { _g := rejectingGen, objectMode := true, cursor := 0 } =
      [StreamEvent.data 1, StreamEvent.data 2] ∧
    drive (fun _ => false) (fuel + 3)
        { _g := throwingGen, objectMode := true, cursor := 0 } =
      [StreamEvent.data 1, StreamEvent.data 2,
        StreamEvent.error (.userError 7)] := by
  constructor <;>
    simp [drive, readOnce, gNext, rejectingGen, throwingGen, rejOutcomes,
      throwingOutcomes, readStep, strictFalse]

/-- Claim C4 is false as stated on the adapter: after the empty sequence
has reported completion and the end-of-stream marker was emitted (first
read), a further read invocation still issues another pull — the cursor
into the wrapped sequence reaches 2, not 1 — though it emits only the end
marker again, never a data item. -/
theorem read_after_eos_pulls_again :
    (readOnce (finState ([] : List Nat) 0 0) 0 false).2 =
        ReadEffect.pushEnd ∧
      (readOnce (readOnce (finState ([] : List Nat) 0 0) 0 false).1
          0 false).1.cursor = 2 ∧
      (readOnce (readOnce (finState ([] : List Nat) 0 0) 0 false).1
          0 false).2 = ReadEffect.pushEnd :=
  ⟨rfl, rfl, rfl⟩

/-- Claim C4 amended: the adapter does not itself guard its terminal state
— a read invocation issued after the wrapped sequence completed still
issues one more pull (the cursor advances) — but, the sequence continuing
to report completion, such a read emits no data item: its only effect is
the end marker again.  Absorption of the terminal state therefore rests on
the host machinery not invoking read after end-of-stream. -/
theorem post_completion_reads (vs : List α) (junk : α) (c sz : Nat)
    (b : Bool) (h : vs.length ≤ c) :
    (readOnce (finState vs junk c) sz b).1.cursor = c + 1 ∧
      (readOnce (finState vs junk c) sz b).2 = ReadEffect.pushEnd := by
  refine ⟨rfl, ?_⟩
  have hlt : ¬ c < vs.length := by omega
  simp [readOnce, finState, gNext, finiteArg, finOutcomes, hlt, readStep,
    strictFalse]

/-- Witness for `post_completion_reads`: the read after the empty
sequence's end-of-stream pulls once more and pushes the end marker. -/
theorem post_completion_reads_witness :
    List.length ([] : List Nat) ≤ 1 ∧
      ((readOnce (finState ([] : List Nat) 0 1) 0 false).1.cursor = 2 ∧
        (readOnce (finState ([] : List Nat) 0 1) 0 false).2 =
          ReadEffect.pushEnd) :=
  ⟨by decide, post_completion_reads [] 0 1 0 false (by decide)⟩

/-- Auxiliary invariant for the single-outstanding-pull property: if the
driver trace alternates correctly (`b` records whether a pull is pending)
and the pulls issued so far (`cursor`) exceed the pulls resolved (`res`)
by exactly the pending one, then every recorded outstanding count stays at
most 1. -/
theorem single_outstanding_aux (t : List DriverEvent) :
    ∀ (b : Bool) (s : StreamState α) (res : Nat), Alternates b t →
      s.cursor = res + (if b then 1 else 0) →
      ((execOutstanding s res t).all fun n => decide (n ≤ 1)) = true := by
  induction t with
  | nil =>
    intro b s res _ _
    rfl
  | cons e t ih =>
    intro b s res halt hc
    cases halt with
    | demand h2 =>
      have hc2 : s.cursor = res := by simpa using hc
      simp only [execOutstanding, List.all_cons, Bool.and_eq_true,
        decide_eq_true_eq]
      constructor
      · simp [readOnce, hc2]
      · exact ih true _ res h2 (by simp [readOnce, hc2])
    | resolution h2 =>
      have hc2 : s.cursor = res + 1 := by simpa using hc
      simp only [execOutstanding, List.all_cons, Bool.and_eq_true,
        decide_eq_true_eq]
      constructor
      · omega
      · exact ih false s (res + 1) h2 (by simp [hc2])

/-- Claim C5: starting from a fresh adapter, under the alternating demand
discipline (a new demand only after the previous pull resolved) the number
of outstanding pulls to the wrapped sequence — pulls issued, which is the
cursor since each read issues exactly one, minus pulls resolved — never
exceeds one at any point of the execution trace. -/
theorem single_outstanding_pull (g : JSArg α) (t : List DriverEvent)
    (h : Alternates false t) :
    ((execOutstanding { _g := g, objectMode := true, cursor := 0 } 0 t).all
        fun n => decide (n ≤ 1)) = true :=
  single_outstanding_aux t false _ 0 h (by simp)

/-- Witness for `single_outstanding_pull`: two demand/resolution rounds
against a one-element generator never leave more than one pull pending. -/
theorem single_outstanding_pull_witness :
    ((execOutstanding
          { _g := finiteArg [5] 0, objectMode := true, cursor := 0 }
          0 altTrace).all fun n => decide (n ≤ 1)) = true :=
  single_outstanding_pull (finiteArg [5] 0) altTrace
    (Alternates.demand (Alternates.resolution
      (Alternates.demand (Alternates.resolution Alternates.nil))))

/-- Claim C6 is false as stated: an async-iterable whose iterator (which
would yield `42`) is reachable only through the `Symbol.asyncIterator`
lookup passes construction, but the adapter pulls by calling `next`
directly on the object, so the first read throws `TypeError` — the stream
emits a single error event and no items, while consumption through the
lookup, as the spec describes it, would emit `data 42` then
end-of-stream. -/
theorem lookup_only_iterable_not_consumed :
    StreamGenerators (.obj lookupOnlyObj) =
        .ok { _g := .obj lookupOnlyObj, objectMode := true, cursor := 0 } ∧
      drive (fun _ => false) 2
          { _g := .obj lookupOnlyObj, objectMode := true, cursor := 0 } =
        [StreamEvent.error (.typeError "this._g.next is not a function")] ∧
      consumeOutcomes lookupOnlyObj.iterOutcomes 2 0 =
        [StreamEvent.data 42, StreamEvent.eos] ∧
      drive (fun _ => false) 2
          { _g := .obj lookupOnlyObj, objectMode := true, cursor := 0 } ≠
        consumeOutcomes lookupOnlyObj.iterOutcomes 2 0 :=
  ⟨rfl, rfl, rfl, by decide⟩

/-- Claim C6 amended: the adapter pulls by invoking `next` directly on the
wrapped argument, never through the iterator obtained from the
capability lookup; consequently every accepted argument that is its own
async iterator (exposing `next`, as ES6 async generators do) is consumed
correctly — construction succeeds and driving the stream equals consuming
the object's own `next` outcomes — while an async-iterable without a
`next` method fails at first read. -/
theorem own_iterator_consumed (w : WrappedObj α)
    (f : Nat → PullOutcome α) (o : Nat → Bool) (fuel c : Nat)
    (hfn : w.hasAsyncIteratorFn = true) (hnext : w.next? = some f) :
    StreamGenerators (.obj w) =
        .ok { _g := .obj w, objectMode := true, cursor := 0 } ∧
      drive o fuel { _g := .obj w, objectMode := true, cursor := c } =
        consumeOutcomes f fuel c := by
  refine ⟨by simp [StreamGenerators, isAsyncIterator, hfn], ?_⟩
  induction fuel generalizing c with
  | zero => rfl
  | succ n ih =>
    have hg : gNext (JSArg.obj w) = f := by simp [gNext, hnext]
    simp only [drive, consumeOutcomes, readOnce, hg]
    cases hr : readStep (f c) <;> simp [hr, ih]

/-- Witness for `own_iterator_consumed`: the one-element generator
`goodObj` is accepted and its drive equals consumption of its own `next`
outcomes. -/
theorem own_iterator_consumed_witness :
    StreamGenerators (.obj goodObj) =
        .ok { _g := .obj goodObj, objectMode := true, cursor := 0 } ∧
      drive (fun _ => false) 2
          { _g := .obj goodObj, objectMode := true, cursor := 0 } =
        consumeOutcomes (finOutcomes [1] 0) 2 0 :=
  own_iterator_consumed goodObj (finOutcomes [1] 0) (fun _ => false) 2 0
    rfl rfl
